import Mathlib

set_option maxRecDepth 100000

/-!
Verification of the Delivery & Notification Dispatch Core of the
`api-enterprise` repository against its natural-language specification.

The development shallowly embeds the Python source:

* `app/tasks/delivery.py` — the Celery task retry schedules for
  `process_delivery` and `process_takedown` (`self.retry` with an
  exponential `countdown` and a `max_retries` cap);
* `app/core/security.py` — `create_webhook_signature` /
  `verify_webhook_signature` (HMAC-SHA256 over the payload keyed by the
  endpoint secret, hex encoded), including the module-level name
  environment relevant to the `hmac` reference in the verifier;
* `app/lambda_handlers/webhook_processor.py` — the outbound webhook
  HTTP call built by `handler`;
* `app/models/delivery.py` and `app/models/webhook.py` — the
  `DeliveryStatus` and `WebhookEvent` rows with their column defaults;
* `app/services/delivery_engine.py` — the `DeliveryEngine` operations.

Machine integers are modelled as `Nat` with explicit `% 2 ^ 32`
(respectively `% 2 ^ 64`) where the SHA-256 arithmetic overflows.
-/

/- ## Celery retry schedules (`app/tasks/delivery.py`) -/

/-- Retry configuration passed to Celery `Task.retry`: the `countdown`
keyword as a function of `self.request.retries`, and the `max_retries`
keyword. -/
structure RetryPolicy where
  countdown : Nat → Nat
  max_retries : Nat

/-- Retry arguments of the `process_delivery` task
(`app/tasks/delivery.py` lines 56–60):
`countdown=60 * (2 ** self.request.retries), max_retries=3`. -/
def deliveryPolicy : RetryPolicy :=
  { countdown := fun r => 60 * 2 ^ r, max_retries := 3 }

/-- Retry arguments of the `process_takedown` task
(`app/tasks/delivery.py` lines 174–178):
`countdown=30 * (2 ** self.request.retries), max_retries=2`. -/
def takedownPolicy : RetryPolicy :=
  { countdown := fun r => 30 * 2 ^ r, max_retries := 2 }

/-- Executions of a Celery task whose body raises on its first
`failures` runs.  Each list entry is `(self.request.retries, delay)`
where `delay` is the countdown waited before that execution (0 for the
first).  Celery `Task.retry` schedules a further execution with
`retries + 1` only while `retries + 1 ≤ max_retries`; otherwise it
raises `MaxRetriesExceededError` and the task stops.  The `fuel`
argument only makes the recursion structural; the run starting from
`r = 0` consumes at most `max_retries` recursive steps, so the
top-level instantiation `fuel = max_retries + 1` never reaches the
`0` case. -/
def celeryRunFuel (p : RetryPolicy) (failures : Nat) :
    Nat → Nat → Nat → List (Nat × Nat)
  | 0, r, d => [(r, d)]
  | fuel + 1, r, d =>
      (r, d) ::
        (if r < failures ∧ r + 1 ≤ p.max_retries then
          celeryRunFuel p failures fuel (r + 1) (p.countdown r)
        else [])

/-- Full run of a Celery task with retry policy `p` whose body fails on
its first `failures` executions. -/
def celeryRun (p : RetryPolicy) (failures : Nat) : List (Nat × Nat) :=
  celeryRunFuel p failures (p.max_retries + 1) 0 0

/-- Attempt trace of the `process_delivery` task when delivery raises
on the first `failures` executions. -/
def processDeliveryRun (failures : Nat) : List (Nat × Nat) :=
  celeryRun deliveryPolicy failures

/-- Attempt trace of the `process_takedown` task when takedown raises
on the first `failures` executions. -/
def processTakedownRun (failures : Nat) : List (Nat × Nat) :=
  celeryRun takedownPolicy failures

lemma celeryRunFuel_length_le (p : RetryPolicy) (failures : Nat) :
    ∀ (fuel r d : Nat), r ≤ p.max_retries →
      (celeryRunFuel p failures fuel r d).length ≤ p.max_retries + 1 - r := by
  intro fuel
  induction fuel with
  | zero => intro r d hr; simp [celeryRunFuel]; omega
  | succ fuel ih =>
      intro r d hr
      by_cases hg : r < failures ∧ r + 1 ≤ p.max_retries
      · have h1 := ih (r + 1) (p.countdown r) hg.2
        simp [celeryRunFuel, hg]
        omega
      · simp [celeryRunFuel, hg]
        omega

lemma celeryRunFuel_get (p : RetryPolicy) (failures : Nat) :
    ∀ (n fuel r d : Nat) (h : n < (celeryRunFuel p failures fuel r d).length),
      (celeryRunFuel p failures fuel r d).get ⟨n, h⟩ =
        (r + n, if n = 0 then d else p.countdown (r + n - 1)) := by
  intro n
  induction n with
  | zero =>
      intro fuel r d h
      cases fuel <;> simp [celeryRunFuel]
  | succ n ih =>
      intro fuel r d h
      cases fuel with
      | zero => simp [celeryRunFuel] at h
      | succ fuel =>
          by_cases hg : r < failures ∧ r + 1 ≤ p.max_retries
          · have hcons :
                celeryRunFuel p failures (fuel + 1) r d =
                  (r, d) :: celeryRunFuel p failures fuel (r + 1) (p.countdown r) := by
              simp [celeryRunFuel, hg]
            have hrest :
                n < (celeryRunFuel p failures fuel (r + 1) (p.countdown r)).length := by
              have h2 : n + 1 <
                  ((r, d) :: celeryRunFuel p failures fuel (r + 1) (p.countdown r)).length := by
                rw [← hcons]; exact h
              simpa using h2
            have hEq := ih fuel (r + 1) (p.countdown r) hrest
            rw [List.get_of_eq hcons]
            simp only [List.get_cons_succ]
            rw [hEq]
            rcases Nat.eq_zero_or_pos n with hn | hn
            · subst hn; simp
            · have hne : n + 1 ≠ 0 := by omega
              have hne2 : n ≠ 0 := by omega
              simp only [hne, hne2, if_false]
              have e2 : r + 1 + n - 1 = r + (n + 1) - 1 := by omega
              have e1 : r + 1 + n = r + (n + 1) := by omega
              rw [e2, e1]
          · exfalso
            have hnil :
                celeryRunFuel p failures (fuel + 1) r d = [(r, d)] := by
              simp [celeryRunFuel, hg]
            rw [hnil] at h
            simp at h

/- ## SHA-256 and HMAC (semantics of Python `hashlib.sha256` / `hmac.new`) -/

/-- Truncation to a 32-bit machine word. -/
def w32 (n : Nat) : Nat := n % 4294967296

/-- Right rotation of a 32-bit word. -/
def rotr32 (x n : Nat) : Nat := w32 ((x >>> n) ||| (x <<< (32 - n)))

/-- Lowercase sigma-0 of the SHA-256 message schedule. -/
def ssig0 (x : Nat) : Nat := (rotr32 x 7) ^^^ (rotr32 x 18) ^^^ (x >>> 3)

/-- Lowercase sigma-1 of the SHA-256 message schedule. -/
def ssig1 (x : Nat) : Nat := (rotr32 x 17) ^^^ (rotr32 x 19) ^^^ (x >>> 10)

/-- Uppercase Sigma-0 of the SHA-256 compression function. -/
def bsig0 (x : Nat) : Nat := (rotr32 x 2) ^^^ (rotr32 x 13) ^^^ (rotr32 x 22)

/-- Uppercase Sigma-1 of the SHA-256 compression function. -/
def bsig1 (x : Nat) : Nat := (rotr32 x 6) ^^^ (rotr32 x 11) ^^^ (rotr32 x 25)

/-- Choice function of the SHA-256 compression function. -/
def chf (x y z : Nat) : Nat := (x &&& y) ^^^ ((x ^^^ 4294967295) &&& z)

/-- Majority function of the SHA-256 compression function. -/
def majf (x y z : Nat) : Nat := (x &&& y) ^^^ (x &&& z) ^^^ (y &&& z)

/-- Round constants of SHA-256. -/
def sha256K : List Nat :=
  [1116352408, 1899447441, 3049323471, 3921009573, 961987163,
   1508970993, 2453635748, 2870763221, 3624381080, 310598401,
   607225278, 1426881987, 1925078388, 2162078206, 2614888103,
   3248222580, 3835390401, 4022224774, 264347078, 604807628,
   770255983, 1249150122, 1555081692, 1996064986, 2554220882,
   2821834349, 2952996808, 3210313671, 3336571891, 3584528711,
   113926993, 338241895, 666307205, 773529912, 1294757372,
   1396182291, 1695183700, 1986661051, 2177026350, 2456956037,
   2730485921, 2820302411, 3259730800, 3345764771, 3516065817,
   3600352804, 4094571909, 275423344, 430227734, 506948616,
   659060556, 883997877, 958139571, 1322822218, 1537002063,
   1747873779, 1955562222, 2024104815, 2227730452, 2361852424,
   2428436474, 2756734187, 3204031479, 3329325298]

/-- Intermediate hash state of SHA-256: eight 32-bit working variables. -/
structure Sha256State where
  a : Nat
  b : Nat
  c : Nat
  d : Nat
  e : Nat
  f : Nat
  g : Nat
  h : Nat

/-- Initial hash value of SHA-256. -/
def sha256Init : Sha256State :=
  ⟨1779033703, 3144134277, 1013904242, 2773480762,
   1359893119, 2600822924, 528734635, 1541459225⟩

/-- Next word of the message schedule, computed from the last 16 words
already produced (`ws` has length ≥ 16 whenever this is used). -/
def nextScheduleWord (ws : List Nat) : Nat :=
  let len := ws.length
  w32 (ssig1 (ws.getD (len - 2) 0) + ws.getD (len - 7) 0 +
       ssig0 (ws.getD (len - 15) 0) + ws.getD (len - 16) 0)

/-- Extension of the 16-word block to the full 64-word schedule. -/
def extendSchedule : Nat → List Nat → List Nat
  | 0, ws => ws
  | k + 1, ws => extendSchedule k (ws ++ [nextScheduleWord ws])

/-- One round of the SHA-256 compression function. -/
def sha256Round (st : Sha256State) (kw : Nat × Nat) : Sha256State :=
  let t1 := w32 (st.h + bsig1 st.e + chf st.e st.f st.g + kw.1 + kw.2)
  let t2 := w32 (bsig0 st.a + majf st.a st.b st.c)
  ⟨w32 (t1 + t2), st.a, st.b, st.c, w32 (st.d + t1), st.e, st.f, st.g⟩

/-- Big-endian decoding of a 64-byte chunk into 16 words. -/
def bytesToWords : List Nat → List Nat
  | b0 :: b1 :: b2 :: b3 :: rest =>
      w32 ((b0 <<< 24) ||| (b1 <<< 16) ||| (b2 <<< 8) ||| b3) :: bytesToWords rest
  | _ => []

/-- Processing of one 64-byte chunk. -/
def sha256Block (st : Sha256State) (chunk : List Nat) : Sha256State :=
  let ws := extendSchedule 48 (bytesToWords chunk)
  let r := (sha256K.zip ws).foldl sha256Round st
  ⟨w32 (st.a + r.a), w32 (st.b + r.b), w32 (st.c + r.c), w32 (st.d + r.d),
   w32 (st.e + r.e), w32 (st.f + r.f), w32 (st.g + r.g), w32 (st.h + r.h)⟩

/-- Big-endian bytes of the 64-bit message bit length. -/
def lengthBytes64 (n : Nat) : List Nat :=
  [n >>> 56 % 256, n >>> 48 % 256, n >>> 40 % 256, n >>> 32 % 256,
   n >>> 24 % 256, n >>> 16 % 256, n >>> 8 % 256, n % 256]

/-- SHA-256 padding: a 0x80 byte, zeros to 56 mod 64, then the bit
length as a 64-bit big-endian integer. -/
def sha256Pad (msg : List Nat) : List Nat :=
  let len := msg.length
  let zeros := (64 + 56 - (len + 1) % 64) % 64
  msg ++ 128 :: List.replicate zeros 0 ++ lengthBytes64 ((8 * len) % 18446744073709551616)

/-- Split into 64-byte chunks; the fuel is the list length, enough
because each step removes 64 elements of a non-empty list. -/
def chunks64 : Nat → List Nat → List (List Nat)
  | 0, _ => []
  | _, [] => []
  | fuel + 1, l => l.take 64 :: chunks64 fuel (l.drop 64)

/-- Big-endian bytes of one 32-bit word. -/
def wordBytesBE (w : Nat) : List Nat :=
  [w >>> 24 % 256, w >>> 16 % 256, w >>> 8 % 256, w % 256]

/-- Serialization of the final hash state into the 32-byte digest. -/
def stateBytes (st : Sha256State) : List Nat :=
  [st.a, st.b, st.c, st.d, st.e, st.f, st.g, st.h].flatMap wordBytesBE

/-- SHA-256 digest (as bytes) of a byte string, as computed by
Python `hashlib.sha256(data).digest()`. -/
def sha256 (msg : List Nat) : List Nat :=
  stateBytes ((chunks64 (sha256Pad msg).length (sha256Pad msg)).foldl sha256Block sha256Init)

/-- Hexadecimal digit characters, lowercase, as produced by Python
`hexdigest()`. -/
def hexChar (n : Nat) : Char := Char.ofNat (if n < 10 then 48 + n else 87 + n)

/-- Lowercase hexadecimal rendering of a byte string, as computed by
Python `hexdigest()`. -/
def bytesToHex (bs : List Nat) : String :=
  String.mk (bs.flatMap fun b => [hexChar (b / 16), hexChar (b % 16)])

/-- UTF-8 bytes of one character, per Python `str.encode()`. -/
def utf8Char (c : Char) : List Nat :=
  let n := c.toNat
  if n < 128 then [n]
  else if n < 2048 then [192 ||| (n >>> 6), 128 ||| (n &&& 63)]
  else if n < 65536 then
    [224 ||| (n >>> 12), 128 ||| ((n >>> 6) &&& 63), 128 ||| (n &&& 63)]
  else
    [240 ||| (n >>> 18), 128 ||| ((n >>> 12) &&& 63),
     128 ||| ((n >>> 6) &&& 63), 128 ||| (n &&& 63)]

/-- UTF-8 encoding of a string, per Python `str.encode()`. -/
def utf8Encode (s : String) : List Nat := s.data.flatMap utf8Char

/-- HMAC-SHA256 (RFC 2104) of a message under a key, as computed by
Python `hmac.new(key, msg, hashlib.sha256).digest()`: keys longer than
the 64-byte block are hashed, the key is zero-padded to the block size,
and the inner/outer pads are 0x36 / 0x5c. -/
def hmacSha256 (key msg : List Nat) : List Nat :=
  let k0 := if 64 < key.length then sha256 key else key
  let kp := k0 ++ List.replicate (64 - k0.length) 0
  let inner := sha256 ((kp.map fun b => b ^^^ 54) ++ msg)
  sha256 ((kp.map fun b => b ^^^ 92) ++ inner)

example : bytesToHex (sha256 []) =
    "e3b0c44298fc1c149afbf4c8996fb92427ae41e4649b934ca495991b7852b855" := by decide

example : bytesToHex (sha256 (utf8Encode "abc")) =
    "ba7816bf8f01cfea414140de5dae2223b00361a396177a9cb410ff61f20015ad" := by decide

example : bytesToHex (hmacSha256 (utf8Encode "Jefe") (utf8Encode "what do ya want for nothing?")) =
    "5bdcc146bf60754e6a042426089575c75a003f089d2739839dec58b964ec3843" := by decide

lemma wordBytesBE_lt (w : Nat) : ∀ b ∈ wordBytesBE w, b < 256 := by
  intro b hb
  simp only [wordBytesBE, List.mem_cons, List.not_mem_nil, or_false] at hb
  rcases hb with rfl | rfl | rfl | rfl <;> exact Nat.mod_lt _ (by norm_num)

lemma stateBytes_length (st : Sha256State) : (stateBytes st).length = 32 := rfl

lemma stateBytes_lt (st : Sha256State) : ∀ b ∈ stateBytes st, b < 256 := by
  intro b hb
  rw [stateBytes, List.mem_flatMap] at hb
  obtain ⟨w, _, hw⟩ := hb
  exact wordBytesBE_lt w b hw

lemma sha256_length (msg : List Nat) : (sha256 msg).length = 32 :=
  stateBytes_length _

lemma sha256_lt (msg : List Nat) : ∀ b ∈ sha256 msg, b < 256 :=
  stateBytes_lt _

lemma hmacSha256_length (key msg : List Nat) : (hmacSha256 key msg).length = 32 :=
  sha256_length _

lemma hmacSha256_lt (key msg : List Nat) : ∀ b ∈ hmacSha256 key msg, b < 256 :=
  sha256_lt _

lemma bytesToHex_length (bs : List Nat) : (bytesToHex bs).length = 2 * bs.length := by
  show (bs.flatMap fun b => [hexChar (b / 16), hexChar (b % 16)]).length = 2 * bs.length
  induction bs with
  | nil => rfl
  | cons a t ih => simp only [List.flatMap_cons, List.length_append, List.length_cons, List.length_nil, ih]; omega

/-- Decision that a character is a lowercase hexadecimal digit. -/
def isLowerHexDigit (c : Char) : Bool := "0123456789abcdef".data.contains c

lemma hexChar_lower_hex : ∀ n, n < 16 → isLowerHexDigit (hexChar n) = true := by decide

lemma bytesToHex_chars (bs : List Nat) (hb : ∀ b ∈ bs, b < 256) :
    ∀ c ∈ (bytesToHex bs).data, isLowerHexDigit c = true := by
  intro c hc
  have hc2 : c ∈ bs.flatMap fun b => [hexChar (b / 16), hexChar (b % 16)] := hc
  rw [List.mem_flatMap] at hc2
  obtain ⟨b, hbmem, hcmem⟩ := hc2
  have hb256 := hb b hbmem
  simp only [List.mem_cons, List.not_mem_nil, or_false] at hcmem
  rcases hcmem with rfl | rfl
  · exact hexChar_lower_hex _ (by omega)
  · exact hexChar_lower_hex _ (by omega)

/- ## Webhook signatures (`app/core/security.py`) -/

/-- Embedding of `create_webhook_signature` (`app/core/security.py`
lines 139–150): `hmac.new(secret.encode(), payload.encode(),
hashlib.sha256).hexdigest()` prefixed with `sha256=`.  The local
`import hmac` / `import hashlib` statements succeed inside this
function, so it is total. -/
def create_webhook_signature (payload secret : String) : String :=
  "sha256=" ++ bytesToHex (hmacSha256 (utf8Encode secret) (utf8Encode payload))

/-- Names bound at module level of `app/core/security.py`: the
`from`/`import` bindings of lines 4–12 and the module-level
definitions and assignments.  `hmac` is absent: it is imported only
inside the body of `create_webhook_signature`, which binds it as a
function-local name. -/
def securityModuleGlobals : List String :=
  ["datetime", "timedelta", "Optional", "Union", "JWTError", "jwt",
   "CryptContext", "HTTPException", "status", "Depends", "HTTPBearer",
   "HTTPAuthorizationCredentials", "secrets", "settings", "pwd_context",
   "security", "create_access_token", "create_refresh_token",
   "verify_password", "get_password_hash", "decode_token",
   "generate_api_key", "verify_api_key", "get_current_user",
   "get_current_active_user", "APIKeyChecker", "api_key_checker",
   "create_webhook_signature", "verify_webhook_signature"]

/-- Semantics of `hmac.compare_digest` on two strings: equality
(the constant-time aspect is irrelevant to the value computed). -/
def compare_digest (a b : String) : Bool := a == b

/-- Embedding of `verify_webhook_signature` (`app/core/security.py`
lines 153–156).  Its body evaluates `create_webhook_signature(payload,
secret)` and then `hmac.compare_digest(signature, expected_signature)`;
the global name `hmac` is resolved against the module namespace, and a
missing name raises `NameError`, modelled as `Except.error`. -/
def verify_webhook_signature (payload signature secret : String) : Except String Bool :=
  let expected := create_webhook_signature payload secret
  if securityModuleGlobals.contains "hmac" then
    Except.ok (compare_digest signature expected)
  else
    Except.error "NameError: name hmac is not defined"

example : create_webhook_signature "\x7b\"a\": 1\x7d" "s3cr3t" =
    "sha256=01d817993e886ef5e644fb014c4691e9c3b91a743ef5f5c5509fbb8a2b8e276a" := by decide

/- ## Webhook processor (`app/lambda_handlers/webhook_processor.py`) -/

/-- Incoming SNS event, a Python dict with string values; `event.get(k)`
returns `None` for a missing key. -/
abbrev PyEvent := List (String × String)

/-- Semantics of `event.get(key)`. -/
def eventGet (e : PyEvent) (k : String) : Option String :=
  (e.find? fun p => p.1 == k).map fun p => p.2

/-- The `payload` dict built by `handler`
(`app/lambda_handlers/webhook_processor.py` lines 37–45): exactly these
seven keys, in this order, each `event.get(...)`. -/
def webhookPayload (e : PyEvent) : List (String × Option String) :=
  [("event_type", eventGet e "event_type"),
   ("release_id", eventGet e "release_id"),
   ("partner_id", eventGet e "partner_id"),
   ("partner_name", eventGet e "partner_name"),
   ("status", eventGet e "status"),
   ("external_id", eventGet e "external_id"),
   ("timestamp", eventGet e "timestamp")]

/-- Outbound HTTP request as constructed by the handler. -/
structure HttpRequest where
  method : String
  url : String
  headers : List (String × String)
  jsonBody : List (String × Option String)
deriving DecidableEq

/-- Semantics of `requests.post(url, json=payload)`: a POST with the
JSON body; the library supplies only the `Content-Type` header, the
call site passes no `headers=` argument. -/
def requestsPostJson (url : String) (payload : List (String × Option String)) : HttpRequest :=
  { method := "POST", url := url,
    headers := [("Content-Type", "application/json")], jsonBody := payload }

/-- Outbound HTTP calls performed by one invocation of `handler`
(`app/lambda_handlers/webhook_processor.py` lines 34–53): when
`event.get('url')` is falsy (missing or empty) the handler returns 400
without calling out; otherwise it performs exactly one
`requests.post(url, json=payload)`. -/
def handlerRequests (e : PyEvent) : List HttpRequest :=
  match eventGet e "url" with
  | none => []
  | some u => if u == "" then [] else [requestsPostJson u (webhookPayload e)]

/-- Lookup of a header value on an outbound request. -/
def findHeader (r : HttpRequest) (k : String) : Option String :=
  (r.headers.find? fun p => p.1 == k).map fun p => p.2

/-- The `WebhookEventStatus` enum of `app/models/webhook.py`
(lines 74–80). -/
inductive WebhookEventStatus where
  | pending
  | sent
  | failed
  | retrying
  | abandoned
deriving DecidableEq

/-- A `WebhookEvent` row (`app/models/webhook.py` lines 83–114),
restricted to the columns the idempotency claim is about. -/
structure WebhookEventRow where
  endpoint_id : Nat
  event_id : String
  status : WebhookEventStatus
  attempt_count : Nat
  max_attempts : Nat
deriving DecidableEq

/-- Effect of one `handler` invocation on the stored `WebhookEvent`
rows together with the outbound HTTP calls it performs.  The handler
imports `SessionLocal` but never opens a session, reads no row and
writes no row, and posts unconditionally whenever the event has a
truthy url — so the rows pass through unchanged and the requests do
not depend on them. -/
def webhookDbStep (db : List WebhookEventRow) (e : PyEvent) :
    List WebhookEventRow × List HttpRequest :=
  (db, handlerRequests e)

/-- Sample SNS event, the documented event structure of the handler
docstring (`app/lambda_handlers/webhook_processor.py` lines 20–30). -/
def sampleEvent : PyEvent :=
  [("event_type", "delivery_complete"), ("release_id", "RL123456"),
   ("partner_id", "partner1"), ("partner_name", "Spotify"),
   ("status", "success"), ("external_id", "EXT123456"),
   ("timestamp", "2025-07-12T15:00:00Z"), ("url", "https://example.com/webhook")]

/-- The single request the handler performs on `sampleEvent`. -/
def sampleRequest : HttpRequest :=
  requestsPostJson "https://example.com/webhook" (webhookPayload sampleEvent)

/-- A stored `WebhookEvent` row that already reached `sent`. -/
def sentRow : WebhookEventRow :=
  { endpoint_id := 1, event_id := "evt-1", status := WebhookEventStatus.sent,
    attempt_count := 1, max_attempts := 3 }

/- ## Delivery engine (`app/services/delivery_engine.py`) and models -/

/-- One per-partner result dict built by the `DeliveryEngine`
operations. -/
structure DeliveryResult where
  release_id : String
  partner_id : String
  status : String
  message : String
  timestamp : String
deriving DecidableEq

/-- Embedding of `DeliveryEngine.process_delivery`
(`app/services/delivery_engine.py` lines 19–34): a result dict is
appended for each partner id, in input order; the body contains no
`raise` and no database access, so the call always returns. -/
def process_delivery (release_id : String) (partner_ids : List String) :
    Except String (List DeliveryResult) :=
  Except.ok (partner_ids.map fun pid =>
    { release_id := release_id, partner_id := pid, status := "success",
      message := "Delivery processed successfully",
      timestamp := "2025-07-12T15:00:00Z" })

/-- Embedding of `DeliveryEngine.retry_failed_deliveries`
(`app/services/delivery_engine.py` lines 36–51). -/
def retry_failed_deliveries (release_id : String) (partner_ids : List String) :
    Except String (List DeliveryResult) :=
  Except.ok (partner_ids.map fun pid =>
    { release_id := release_id, partner_id := pid, status := "retry_success",
      message := "Retry processed successfully",
      timestamp := "2025-07-12T15:00:00Z" })

/-- Embedding of `DeliveryEngine.process_takedown`
(`app/services/delivery_engine.py` lines 53–68). -/
def process_takedown (release_id : String) (partner_ids : List String) :
    Except String (List DeliveryResult) :=
  Except.ok (partner_ids.map fun pid =>
    { release_id := release_id, partner_id := pid, status := "takedown_success",
      message := "Takedown processed successfully",
      timestamp := "2025-07-12T15:00:00Z" })

/-- The `DeliveryStatusEnum` of `app/models/delivery.py` (lines 12–21). -/
inductive DeliveryStatusEnum where
  | pending
  | in_progress
  | delivered
  | live
  | failed
  | rejected
  | takedown
  | suspended
deriving DecidableEq

/-- A `DeliveryStatus` row (`app/models/delivery.py` lines 24–49),
restricted to the columns the invariant claims are about. -/
structure DeliveryStatusRow where
  status : DeliveryStatusEnum
  retry_count : Nat
  max_retries : Nat
deriving DecidableEq

/-- Column defaults of `DeliveryStatus` (`app/models/delivery.py`
lines 33, 40, 41): `status=PENDING`, `retry_count=0`, `max_retries=3`. -/
def newDeliveryStatusRow : DeliveryStatusRow :=
  { status := DeliveryStatusEnum.pending, retry_count := 0, max_retries := 3 }

/-- Stored `DeliveryStatus` rows keyed by (release_id, partner_id). -/
abbrev DispatchState := List ((String × String) × DeliveryStatusRow)

/-- The three public operations of the dispatch core. -/
inductive EngineOp where
  | deliver (rid : String) (pids : List String)
  | retryFailed (rid : String) (pids : List String)
  | takedownOp (rid : String) (pids : List String)

/-- Result list of one engine operation. -/
def engineResults : EngineOp → Except String (List DeliveryResult)
  | EngineOp.deliver rid pids => process_delivery rid pids
  | EngineOp.retryFailed rid pids => retry_failed_deliveries rid pids
  | EngineOp.takedownOp rid pids => process_takedown rid pids

/-- Effect of one engine operation on the stored rows: the engine
holds a session in `self.db` but issues no query and no write
(`app/services/delivery_engine.py` lines 19–68), so the state passes
through unchanged. -/
def applyEngineOp (s : DispatchState) (op : EngineOp) :
    DispatchState × Except String (List DeliveryResult) :=
  (s, engineResults op)

/-- Dispatch states reachable from an initial population of
freshly-created rows (each with the model column defaults) under the
engine operations. -/
inductive ReachableDispatch : DispatchState → Prop where
  | init (pairs : List (String × String)) :
      ReachableDispatch (pairs.map fun pr => (pr, newDeliveryStatusRow))
  | step (s : DispatchState) (op : EngineOp) :
      ReachableDispatch s → ReachableDispatch (applyEngineOp s op).1

/- ## Claim theorems -/

/-- C1 (counterexample): with a delivery that keeps failing, the
`process_delivery` task is executed 4 times in total — the initial run
plus `max_retries = 3` retries — so the claimed cap of 3 total attempts
is false (Celery counts `max_retries` retries beyond the first
execution). -/
theorem delivery_total_attempts_counterexample :
    (processDeliveryRun 10).length = 4 ∧ ¬((processDeliveryRun 10).length ≤ 3) := by
  decide

/-- C1 (amended): for every failure pattern, each execution of the
`process_delivery` task is numbered by its prior-retry count `n`
starting at 0, the delay waited before retry execution `n ≥ 1` is
`60 * 2 ^ (n - 1)` seconds — i.e. the countdown scheduled when the
execution with `n - 1` prior retries fails is `60 * 2 ^ (n - 1)` — and
no more than 4 total executions (1 initial + `max_retries = 3`
retries) are made. -/
theorem delivery_retry_schedule (failures : Nat) :
    (processDeliveryRun failures).length ≤ 4 ∧
    ∀ (n : Nat) (h : n < (processDeliveryRun failures).length),
      (processDeliveryRun failures).get ⟨n, h⟩ =
        (n, if n = 0 then 0 else 60 * 2 ^ (n - 1)) := by
  constructor
  · have hlen := celeryRunFuel_length_le deliveryPolicy failures
      (deliveryPolicy.max_retries + 1) 0 0 (Nat.zero_le _)
    simpa [processDeliveryRun, celeryRun, deliveryPolicy] using hlen
  · intro n h
    have hg := celeryRunFuel_get deliveryPolicy failures n
      (deliveryPolicy.max_retries + 1) 0 0 h
    simpa [processDeliveryRun, celeryRun, deliveryPolicy] using hg

/-- C1 (witness): with 10 consecutive failures the run has 4
executions and the fourth (3 prior retries) waits `60 * 2 ^ 2 = 240`
seconds. -/
theorem delivery_retry_schedule_witness :
    (processDeliveryRun 10).length ≤ 4 ∧
    (processDeliveryRun 10).get ⟨3, by decide⟩ = (3, 240) := by
  refine ⟨(delivery_retry_schedule 10).1, ?_⟩
  have h3 : (3 : Nat) < (processDeliveryRun 10).length := by decide
  have := (delivery_retry_schedule 10).2 3 h3
  simpa using this

/-- C2 (counterexample): the takedown retry policy is not the delivery
retry policy — at attempt number 0 the takedown countdown is 30 s
while the delivery countdown is 60 s, the caps are `max_retries = 2`
versus 3, and an always-failing takedown run has 3 executions versus
4 for delivery. -/
theorem takedown_policy_differs_counterexample :
    takedownPolicy.countdown 0 = 30 ∧ deliveryPolicy.countdown 0 = 60 ∧
    takedownPolicy.countdown 0 ≠ deliveryPolicy.countdown 0 ∧
    takedownPolicy.max_retries = 2 ∧ deliveryPolicy.max_retries = 3 ∧
    (processTakedownRun 10).length = 3 ∧ (processDeliveryRun 10).length = 4 := by
  decide

/-- C2 (amended): the takedown task retries with exponential backoff of
base 30 seconds — half the delivery base at every attempt number — and
gives up after `max_retries = 2` retries instead of delivery's 3. -/
theorem takedown_vs_delivery_policy (r : Nat) :
    takedownPolicy.countdown r = 30 * 2 ^ r ∧
    deliveryPolicy.countdown r = 60 * 2 ^ r ∧
    2 * takedownPolicy.countdown r = deliveryPolicy.countdown r ∧
    takedownPolicy.max_retries = 2 ∧ deliveryPolicy.max_retries = 3 := by
  refine ⟨rfl, rfl, ?_, rfl, rfl⟩
  show 2 * (30 * 2 ^ r) = 60 * 2 ^ r
  ring

/-- C3: for every payload and secret, the webhook signature is the
string `sha256=` followed by the hex HMAC-SHA256 digest of the payload
keyed by the secret, and that digest rendering is 64 lowercase
hexadecimal characters. -/
theorem webhook_signature_correct (payload secret : String) :
    create_webhook_signature payload secret =
      "sha256=" ++ bytesToHex (hmacSha256 (utf8Encode secret) (utf8Encode payload)) ∧
    (bytesToHex (hmacSha256 (utf8Encode secret) (utf8Encode payload))).length = 64 ∧
    ∀ c ∈ (bytesToHex (hmacSha256 (utf8Encode secret) (utf8Encode payload))).data,
      isLowerHexDigit c = true := by
  refine ⟨rfl, ?_, bytesToHex_chars _ (hmacSha256_lt _ _)⟩
  rw [bytesToHex_length, hmacSha256_length]

/-- C3 (witness): instantiation at the spec fixture
`secret="s3cr3t"`, `payload='{"a": 1}'`; the digest of the fixture
starts with the lowercase hex character `0`. -/
theorem webhook_signature_correct_witness :
    create_webhook_signature "\x7b\"a\": 1\x7d" "s3cr3t" =
      "sha256=" ++ bytesToHex (hmacSha256 (utf8Encode "s3cr3t") (utf8Encode "\x7b\"a\": 1\x7d")) ∧
    isLowerHexDigit (Char.ofNat 48) = true :=
  ⟨(webhook_signature_correct "\x7b\"a\": 1\x7d" "s3cr3t").1,
   (webhook_signature_correct "\x7b\"a\": 1\x7d" "s3cr3t").2.2 (Char.ofNat 48) (by decide)⟩

/-- C4 (code bug): verifying a freshly generated signature does not
return `True` — it raises `NameError`, because line 156 of
`app/core/security.py` references the module-level name `hmac`, which
the module never imports (the `import hmac` on line 141 is local to
`create_webhook_signature`).  Evaluated here at the spec fixture
`secret="s3cr3t"`, `payload='{"a": 1}'`. -/
theorem verify_webhook_signature_name_error :
    verify_webhook_signature "\x7b\"a\": 1\x7d"
        (create_webhook_signature "\x7b\"a\": 1\x7d" "s3cr3t") "s3cr3t" =
      Except.error "NameError: name hmac is not defined" := rfl

/-- C5 (counterexample): on the documented sample event the handler
performs exactly one outbound call, a POST, and that call carries no
`X-Signature` header — `requests.post(url, json=payload)` is issued
with no `headers=` argument, so the claimed signature header is absent. -/
theorem webhook_callback_unsigned_counterexample :
    (handlerRequests sampleEvent).map (fun r => findHeader r "X-Signature") = [none] ∧
    (handlerRequests sampleEvent).map (fun r => r.method) = ["POST"] := by
  decide

/-- C5 (amended): every outbound webhook HTTP callback is a POST to
the event's url whose JSON body contains exactly the fields
`event_type`, `release_id`, `partner_id`, `partner_name`, `status`,
`external_id`, `timestamp` — but it carries no `X-Signature` header. -/
theorem webhook_callback_shape (e : PyEvent) (r : HttpRequest)
    (hr : r ∈ handlerRequests e) :
    r.method = "POST" ∧
    eventGet e "url" = some r.url ∧
    r.jsonBody.map (fun p => p.1) =
      ["event_type", "release_id", "partner_id", "partner_name",
       "status", "external_id", "timestamp"] ∧
    findHeader r "X-Signature" = none := by
  unfold handlerRequests at hr
  rcases hu : eventGet e "url" with _ | u
  · rw [hu] at hr
    simp at hr
  · rw [hu] at hr
    by_cases h0 : u == ""
    · simp [h0] at hr
    · simp [h0] at hr
      subst hr
      exact ⟨rfl, rfl, rfl, rfl⟩

/-- C5 (witness): the shape theorem instantiated at the sample event
and the single request the handler performs on it. -/
theorem webhook_callback_shape_witness :
    sampleRequest.method = "POST" ∧
    eventGet sampleEvent "url" = some sampleRequest.url ∧
    sampleRequest.jsonBody.map (fun p => p.1) =
      ["event_type", "release_id", "partner_id", "partner_name",
       "status", "external_id", "timestamp"] ∧
    findHeader sampleRequest "X-Signature" = none :=
  webhook_callback_shape sampleEvent sampleRequest (by decide)

/-- C6 (counterexample): with the stored `WebhookEvent` row for the
event already `sent`, reprocessing the same domain event still
performs one new outbound HTTP call (the claim requires zero); the row
itself is left unchanged. -/
theorem webhook_redelivery_counterexample :
    (webhookDbStep [sentRow] sampleEvent).2.length = 1 ∧
    (webhookDbStep [sentRow] sampleEvent).1 = [sentRow] := by
  decide

/-- C6 (amended): redelivering a domain event whose `WebhookEvent` row
is already `sent` leaves the row unchanged but performs the outbound
HTTP call again — the handler consults no stored state, so its
requests are identical whatever the rows contain: webhook delivery is
not idempotent once sent. -/
theorem webhook_redelivery_resends (db : List WebhookEventRow) (e : PyEvent)
    (row : WebhookEventRow) (hmem : row ∈ db)
    (hsent : row.status = WebhookEventStatus.sent) :
    (webhookDbStep db e).1 = db ∧
    (webhookDbStep db e).2 = handlerRequests e ∧
    (webhookDbStep db e).2 = (webhookDbStep [] e).2 :=
  ⟨rfl, rfl, rfl⟩

/-- C6 (witness): instantiation at a database holding one `sent` row
and the sample event. -/
theorem webhook_redelivery_resends_witness :
    (webhookDbStep [sentRow] sampleEvent).1 = [sentRow] ∧
    (webhookDbStep [sentRow] sampleEvent).2 = handlerRequests sampleEvent ∧
    (webhookDbStep [sentRow] sampleEvent).2 = (webhookDbStep [] sampleEvent).2 :=
  webhook_redelivery_resends [sentRow] sampleEvent sentRow (by decide) (by decide)

/-- C7: for every release id and partner id list, `process_delivery`
returns (it contains no `raise`, so it never raises — in particular
never for a partner's failure) a result list with exactly one entry
per supplied partner id, in order, each carrying that partner id and
the release id. -/
theorem process_delivery_total (release_id : String) (partner_ids : List String) :
    ∃ rs, process_delivery release_id partner_ids = Except.ok rs ∧
      rs.map (fun r => r.partner_id) = partner_ids ∧
      rs.all (fun r => r.release_id == release_id) = true := by
  refine ⟨_, rfl, ?_, ?_⟩
  · rw [List.map_map]
    exact List.map_id partner_ids
  · rw [List.all_eq_true]
    intro r hr
    rw [List.mem_map] at hr
    obtain ⟨pid, _, rfl⟩ := hr
    exact beq_self_eq_true release_id

/-- C8: in every dispatch state reachable from freshly-created rows
(status `pending`, `retry_count 0`, `max_retries 3`) under the engine
operations, every row satisfies `retry_count ≤ max_retries`, and
`status = failed` implies `retry_count = max_retries` (the engine
performs no transition at all, so `failed` — and with it the
permanent-error alternative of the claim — never even arises). -/
theorem delivery_status_invariant (s : DispatchState) (hs : ReachableDispatch s)
    (pr : String × String) (row : DeliveryStatusRow) (hmem : (pr, row) ∈ s) :
    row.retry_count ≤ row.max_retries ∧
    (row.status = DeliveryStatusEnum.failed →
      row.retry_count = row.max_retries) := by
  induction hs with
  | init pairs =>
      rw [List.mem_map] at hmem
      obtain ⟨pr2, _, heq⟩ := hmem
      cases heq
      exact ⟨by decide, by intro h; cases h⟩
  | step s op hs ih => exact ih hmem

/-- C8 (witness): instantiation at the initial state holding the single
pair ("R1", "P1"). -/
theorem delivery_status_invariant_witness :
    newDeliveryStatusRow.retry_count ≤ newDeliveryStatusRow.max_retries ∧
    (newDeliveryStatusRow.status = DeliveryStatusEnum.failed →
      newDeliveryStatusRow.retry_count = newDeliveryStatusRow.max_retries) :=
  delivery_status_invariant [(("R1", "P1"), newDeliveryStatusRow)]
    (ReachableDispatch.init [("R1", "P1")]) ("R1", "P1") newDeliveryStatusRow
    (by decide)

/-- C9 (counterexample): two consecutive `start` (deliver) calls for
the same ("R1", "P1") pair — the engine operations are pure functions
of their arguments, so this covers every concurrent interleaving —
both return a success result and leave the row `pending`: no
`pending → in_progress` transition happens and neither call fails
with `ConcurrencyConflictError` (no such error exists in the engine),
contradicting the claimed exactly-one/exactly-one split. -/
theorem concurrent_start_counterexample :
    (applyEngineOp [(("R1", "P1"), newDeliveryStatusRow)]
        (EngineOp.deliver "R1" ["P1"])).1 =
      [(("R1", "P1"), newDeliveryStatusRow)] ∧
    (applyEngineOp [(("R1", "P1"), newDeliveryStatusRow)]
        (EngineOp.deliver "R1" ["P1"])).2 =
      Except.ok [{ release_id := "R1", partner_id := "P1", status := "success",
                   message := "Delivery processed successfully",
                   timestamp := "2025-07-12T15:00:00Z" }] ∧
    (applyEngineOp (applyEngineOp [(("R1", "P1"), newDeliveryStatusRow)]
          (EngineOp.deliver "R1" ["P1"])).1
        (EngineOp.deliver "R1" ["P1"])).2 =
      Except.ok [{ release_id := "R1", partner_id := "P1", status := "success",
                   message := "Delivery processed successfully",
                   timestamp := "2025-07-12T15:00:00Z" }] :=
  ⟨rfl, rfl, rfl⟩

/-- C9 (amended): two concurrent `start` calls for the same
(release, partner) pair both succeed with identical results; neither
performs a `pending → in_progress` transition and neither raises
`ConcurrencyConflictError` — the engine has no mutual exclusion and
each call is a pure function of its arguments, so any interleaving
equals sequential composition. -/
theorem concurrent_start_both_succeed (s : DispatchState) (rid pid : String) :
    (applyEngineOp s (EngineOp.deliver rid [pid])).1 = s ∧
    (applyEngineOp (applyEngineOp s (EngineOp.deliver rid [pid])).1
        (EngineOp.deliver rid [pid])).1 = s ∧
    (applyEngineOp s (EngineOp.deliver rid [pid])).2 =
      (applyEngineOp (applyEngineOp s (EngineOp.deliver rid [pid])).1
        (EngineOp.deliver rid [pid])).2 ∧
    (applyEngineOp s (EngineOp.deliver rid [pid])).2 =
      Except.ok [{ release_id := rid, partner_id := pid, status := "success",
                   message := "Delivery processed successfully",
                   timestamp := "2025-07-12T15:00:00Z" }] :=
  ⟨rfl, rfl, rfl, rfl⟩

/-- C10: each engine operation is a pure function of its arguments —
the stored state passes through unchanged whatever it contains — and
returns one record per supplied partner id, in input order, with the
constant status `success` / `retry_success` / `takedown_success`
respectively and the constant timestamp `2025-07-12T15:00:00Z`,
regardless of whether the release or partners exist. -/
theorem engine_ops_constant (db : DispatchState) (rid : String) (pids : List String) :
    applyEngineOp db (EngineOp.deliver rid pids) =
      (db, Except.ok (pids.map fun pid =>
        { release_id := rid, partner_id := pid, status := "success",
          message := "Delivery processed successfully",
          timestamp := "2025-07-12T15:00:00Z" })) ∧
    applyEngineOp db (EngineOp.retryFailed rid pids) =
      (db, Except.ok (pids.map fun pid =>
        { release_id := rid, partner_id := pid, status := "retry_success",
          message := "Retry processed successfully",
          timestamp := "2025-07-12T15:00:00Z" })) ∧
    applyEngineOp db (EngineOp.takedownOp rid pids) =
      (db, Except.ok (pids.map fun pid =>
        { release_id := rid, partner_id := pid, status := "takedown_success",
          message := "Takedown processed successfully",
          timestamp := "2025-07-12T15:00:00Z" })) :=
  ⟨rfl, rfl, rfl⟩
